import Mathlib

/-!
Formal model of the MCP chatbot orchestration core (`main.py` and
`chatbot_ui.py`): tool-provider sessions with retrying tool execution,
the inference client with rate-limit backoff, and the conversational
orchestration loop.

Python functions are embedded as explicit Lean functions.  External
effects are passed in as oracles so every definition is executable:
the JSON decoder (`json.loads`) becomes a `String → Option JValue`
parameter, the HTTP endpoint becomes a `Nat → HttpResp` response
schedule, and the tool transport becomes a per-attempt outcome
function.  A raised Python exception is an `Except.error`; a Python
function that falls off its end "returns" `none`.
-/

namespace McpWebui

/-- JSON values, as produced by the external `json.loads`. -/
inductive JValue where
  | null
  | bool (b : Bool)
  | num (n : Int)
  | str (s : String)
  | arr (elems : List JValue)
  | obj (fields : List (String × JValue))

/-- Python `dict.get` semantics on the field list of an object: the last
occurrence of a key wins (matching the dict built by `json.loads`). -/
def dictGet (fields : List (String × JValue)) (k : String) : Option JValue :=
  fields.foldl (fun acc p => if p.1 = k then some p.2 else acc) none

/-- Result of running `Server.execute_tool`: the Python outcome
(`.ok (some r)` = returned result, `.ok none` = implicit `return None`,
`.error e` = raised), the number of `session.call_tool` invocations,
and the sequence of `asyncio.sleep` delays in order. -/
structure ExecResult (α : Type) where
  outcome : Except String (Option α)
  calls : Nat
  sleeps : List ℚ

/-- The `while attempt < retries` loop of `Server.execute_tool`, entered
at attempt number `attempt` with `remaining = retries - attempt` loop
iterations left.  `call n` is the outcome of the n-th
`session.call_tool` invocation (`n` counted from 0). -/
def execFrom {α : Type} (call : Nat → Except String α) (delay : ℚ) :
    Nat → Nat → ExecResult α
  | _, 0 => ⟨.ok none, 0, []⟩
  | attempt, remaining + 1 =>
    match call attempt with
    | .ok v => ⟨.ok (some v), 1, []⟩
    | .error e =>
      if remaining = 0 then ⟨.error e, 1, []⟩
      else
        let rest := execFrom call delay (attempt + 1) remaining
        ⟨rest.outcome, rest.calls + 1, delay :: rest.sleeps⟩

/-- Model of `Server.execute_tool(tool_name, arguments, retries, delay)`.
`initialized` models whether `self.session` is set; when it is not the
method raises before entering the loop.  The tool name and arguments are
folded into the `call` oracle. -/
def execute_tool {α : Type} (initialized : Bool) (call : Nat → Except String α)
    (retries : Int) (delay : ℚ) : ExecResult α :=
  if initialized = false then ⟨.error "Server not initialized", 0, []⟩
  else execFrom call delay 0 retries.toNat

/-! ### JSON serialization (`json.dumps` with default separators) -/

mutual

/-- Serialization of a value as `json.dumps` renders it, with the
default separators `", "` and `": "`.
(String contents in this model are plain text needing no escapes.) -/
def dumps : JValue → String
  | .null => "null"
  | .bool true => "true"
  | .bool false => "false"
  | .num n => toString n
  | .str s => "\x22" ++ s ++ "\x22"
  | .arr xs => "[" ++ dumpsArr xs ++ "]"
  | .obj fs => "\x7b" ++ dumpsObj fs ++ "\x7d"

/-- Serialize array elements, separated by `", "`. -/
def dumpsArr : List JValue → String
  | [] => ""
  | [x] => dumps x
  | x :: y :: xs => dumps x ++ ", " ++ dumpsArr (y :: xs)

/-- Serialize object fields, separated by `", "`. -/
def dumpsObj : List (String × JValue) → String
  | [] => ""
  | [p] => "\x22" ++ p.1 ++ "\x22: " ++ dumps p.2
  | p :: q :: fs => "\x22" ++ p.1 ++ "\x22: " ++ dumps p.2 ++ ", " ++ dumpsObj (q :: fs)

end

/-! ### InferenceClient (`LLMClient`) -/

/-- One message of the running log, `{"role": ..., "content": ...}`.
`content` is `none` when the Python value is `None`. -/
structure Message where
  role : String
  content : Option String
deriving DecidableEq

/-- A tool schema as sent to the API (`Tool.to_api_dict` output); kept
abstract as its JSON value. -/
def ToolSchema : Type := JValue

/-- The request payload `LLMClient.get_response` builds: the base fields
are literal constants of the source; `tools`/`tool_choice` are present
exactly when the cached `all_tools` of the client is non-empty. -/
structure Payload where
  messages : List Message
  model : String
  temperature : ℚ
  maxTokens : Nat
  topP : ℚ
  stream : Bool
  tools : Option (List ToolSchema)
  toolChoice : Option String

/-- Payload construction in `LLMClient.get_response(messages, tools)`.
`allTools` is the `self.all_tools` cache of the client; `toolsParam` is
the `tools` parameter of the method, which the body never reads. -/
def buildPayload (allTools : List ToolSchema) (messages : List Message)
    (toolsParam : Option (List ToolSchema)) : Payload :=
  { messages := messages
    model := "llama-3.1-8b-instant"
    temperature := 7 / 10
    maxTokens := 4096
    topP := 1
    stream := false
    tools := if allTools.isEmpty then none else some allTools
    toolChoice := if allTools.isEmpty then none else some "auto" }

/-- A structured tool call inside an inference reply: the function name
and the parse outcome of its JSON-encoded `arguments` string
(`none` means `json.loads(call["arguments"])` raises). -/
structure ToolCallMsg where
  name : String
  argsParsed : Option JValue

/-- The `message` object of the first choice of a 2xx reply body:
`tool_calls` (absent, or present as a list) and `content` (absent or
`null` collapse to `none`, as both make `choice.get("content")` return
`None`). -/
structure ChoiceMsg where
  toolCalls : Option (List ToolCallMsg)
  content : Option String

/-- Errors `LLMClient.get_response` can raise. -/
inductive LLMError where
  | malformed                  -- RuntimeError: unexpected LLM response shape
  | decodeErr                  -- json.loads failure on tool-call arguments
  | httpStatus (code : Nat)    -- raise_for_status on another non-2xx status
  | transport (msg : String)   -- transport-level failure from the client
  | maxRetries                 -- RuntimeError: max retries exceeded
deriving DecidableEq

/-- The Python test `"tool_calls" in choice and choice["tool_calls"]`:
yields the first call when the field is present and non-empty. -/
def truthyToolCall (c : ChoiceMsg) : Option ToolCallMsg :=
  match c.toolCalls with
  | some (tc :: _) => some tc
  | _ => none

/-- Mapping of a successful (2xx) reply body to the string
`get_response` returns: a truthy `tool_calls` wins and is rendered as
the canonical directive text; else the content; else a raise. -/
def mapChoice (c : ChoiceMsg) : Except LLMError String :=
  match truthyToolCall c with
  | some tc =>
    match tc.argsParsed with
    | some args => .ok (dumps (.obj [("tool", .str tc.name), ("arguments", args)]))
    | none => .error .decodeErr
  | none =>
    match c.content with
    | some s => .ok s
    | none => .error .malformed

/-- One response of the inference endpoint, as `get_response` observes
it.  For a 429 the optional already-parsed `retry-after` header value is
carried along. -/
inductive HttpResp where
  | rateLimited (retryAfter : Option Nat)
  | success (choice : ChoiceMsg)
  | httpError (code : Nat)
  | transportError (msg : String)

/-- Result of `get_response`: the returned text or raised error, the
number of POST requests issued, and the `time.sleep` durations in
order. -/
structure LLMResult where
  outcome : Except LLMError String
  requests : Nat
  sleeps : List Nat

/-- The `for attempt in range(max_retries)` loop of `get_response`.
`resp n` is the answer of the endpoint to the n-th request; `backoff` is the
internal counter (it doubles after every 429, whether or not a
`retry-after` header was used for the sleep). -/
def getResponseLoop (resp : Nat → HttpResp) : Nat → Nat → Nat → LLMResult
  | 0, _, _ => ⟨.error .maxRetries, 0, []⟩
  | fuel + 1, attempt, backoff =>
    match resp attempt with
    | .rateLimited ra =>
      let rest := getResponseLoop resp fuel (attempt + 1) (backoff * 2)
      ⟨rest.outcome, rest.requests + 1, ra.getD backoff :: rest.sleeps⟩
    | .success c => ⟨mapChoice c, 1, []⟩
    | .httpError code => ⟨.error (.httpStatus code), 1, []⟩
    | .transportError m => ⟨.error (.transport m), 1, []⟩

/-- Retry behaviour of `LLMClient.get_response`: `max_retries = 5`,
`backoff` starting at 2. -/
def get_response (resp : Nat → HttpResp) : LLMResult :=
  getResponseLoop resp 5 0 2

/-- The whole of `LLMClient.get_response(messages, tools)`: build the
payload once from the cached `all_tools` (the `tools` parameter is in
scope but unread), then run the request loop against the endpoint,
which sees that payload on every request. -/
def get_response_full (allTools : List ToolSchema) (messages : List Message)
    (toolsParam : Option (List ToolSchema)) (endpoint : Payload → Nat → HttpResp) :
    Payload × LLMResult :=
  let payload := buildPayload allTools messages toolsParam
  (payload, get_response (endpoint payload))

/-! ### Python dict/membership semantics used by `process_llm_response` -/

/-- Python `str_value == x` for an arbitrary JSON value `x`: true only
when `x` is the equal string. -/
def pyEqStr (v : JValue) (s : String) : Bool :=
  match v with
  | .str t => t == s
  | _ => false

/-- Python `k in v`: key membership for dicts, element equality for
lists, substring test for strings; `TypeError` otherwise. -/
def pyContains (v : JValue) (k : String) : Except Unit Bool :=
  match v with
  | .obj fs => .ok (fs.any (fun p => p.1 == k))
  | .arr xs => .ok (xs.any (fun x => pyEqStr x k))
  | .str s => .ok (decide (k.toList <:+: s.toList))
  | _ => .error ()

/-- Python `v[k]` for a string key: dict lookup (`KeyError` when
missing); `TypeError` on any non-dict. -/
def pyGetItem (v : JValue) (k : String) : Except Unit JValue :=
  match v with
  | .obj fs =>
    match dictGet fs k with
    | some x => .ok x
    | none => .error ()
  | _ => .error ()

/-- Python `str(v)` as used by the f-strings of the loop; container
values are approximated by their JSON rendering. -/
def pyStr (v : JValue) : String :=
  match v with
  | .str s => s
  | .num n => toString n
  | .bool true => "True"
  | .bool false => "False"
  | .null => "None"
  | v => dumps v

/-! ### ProviderSession catalogs and tool resolution -/

/-- One tool of a provider catalog: its name, its `input_schema`
dict, and the transport outcome of `session.call_tool` on given
arguments, per attempt number (the oracle standing for the provider
process). -/
structure CatalogTool where
  name : String
  inputSchema : List (String × JValue)
  callResult : JValue → Nat → Except String String

/-- One initialized provider session, reduced to the catalog its
`list_tools()` returns. -/
structure Session where
  tools : List CatalogTool

/-- The nested `for server in servers: / for tool in tools:` search of
`process_llm_response`: the first session in registration order whose
catalog holds a tool whose name equals the `tool` value of the
directive, together with that tool (the first match in that session). -/
def findToolServer : List Session → JValue → Option (Session × CatalogTool)
  | [], _ => none
  | s :: rest, name =>
    match s.tools.find? (fun t => pyEqStr name t.name) with
    | some t => some (s, t)
    | none => findToolServer rest name

/-- The chain `schema.get("properties", {}).get(arg_name, {}).get("type")` as an
`Option String` usable in the `expected in ("object", "array")` test: a
declared non-string type never passes that test, so it collapses to
`none`; a non-dict on the `.get` chain raises (`AttributeError`). -/
def propType (schema : List (String × JValue)) (argName : String) :
    Except Unit (Option String) :=
  match (dictGet schema "properties").getD (.obj []) with
  | .obj pfs =>
    match (dictGet pfs argName).getD (.obj []) with
    | .obj sfs =>
      .ok (match dictGet sfs "type" with
           | some (.str t) => some t
           | _ => none)
    | _ => .error ()
  | _ => .error ()

/-- Coercion of one argument value: a string supplied where the schema
declares `object` or `array` is JSON-parsed, an unparsable one replaced
by the schema-appropriate empty value; everything else passes through. -/
def sanitizeField (parse : String → Option JValue) (ty : Option String)
    (v : JValue) : JValue :=
  match ty, v with
  | some t, .str s =>
    if t = "object" then (parse s).getD (.obj [])
    else if t = "array" then (parse s).getD (.arr [])
    else v
  | _, _ => v

/-- The sanitisation loop over `raw_args.items()`; `raw_args` must be a
dict (`.items()` on anything else raises `AttributeError`). -/
def sanitizeArgs (parse : String → Option JValue)
    (schema : List (String × JValue)) : JValue → Except Unit JValue
  | .obj fs => do
    let fs' ← fs.mapM (fun p => do
      let ty ← propType schema p.1
      pure (p.1, sanitizeField parse ty p.2))
    pure (.obj fs')
  | _ => .error ()

/-! ### OrchestrationLoop (`ChatSession`) -/

/-- Exceptions that escape `process_llm_response` (the chat loop does
not catch either kind). -/
inductive ProcErr where
  | typeErr               -- TypeError / AttributeError on a malformed directive
  | toolErr (e : String)  -- execute_tool exhausted its retries and raised
deriving DecidableEq

/-- Model of `ChatSession.process_llm_response(llm_response)`, with `parse`
standing for `json.loads`.  Yields the Python return value (`none` is
the implicit `return None` taken when the decoded JSON fails the
directive test) paired with the number of tool executions performed. -/
def process_llm_response (parse : String → Option JValue)
    (servers : List Session) (llmResponse : String) :
    Except ProcErr (Option String × Nat) :=
  match parse llmResponse with
  | none => .ok (some llmResponse, 0)
  | some v =>
    match pyContains v "tool" with
    | .error _ => .error .typeErr
    | .ok false => .ok (none, 0)
    | .ok true =>
      match pyContains v "arguments" with
      | .error _ => .error .typeErr
      | .ok false => .ok (none, 0)
      | .ok true =>
        match pyGetItem v "tool", pyGetItem v "arguments" with
        | .ok name, .ok rawArgs =>
          match findToolServer servers name with
          | none => .ok (some ("No server found with tool: " ++ pyStr name), 0)
          | some (_, t) =>
            match sanitizeArgs parse t.inputSchema rawArgs with
            | .error _ => .error .typeErr
            | .ok args =>
              match (execute_tool true (t.callResult args) 2 1).outcome with
              | .error e => .error (.toolErr e)
              | .ok (some r) => .ok (some ("Tool execution result: " ++ r), 1)
              | .ok none => .ok (some "Tool execution result: None", 1)
        | _, _ => .error .typeErr

/-- The body of the `while True:` loop of `ChatSession.start` for one user turn,
entered after the user message was appended.  `replies n` is the text
the model returns to the n-th `get_response` call of this turn.  Yields
the new message log, the number of model calls made, and the number of
tool executions performed. -/
def runTurn (parse : String → Option JValue) (servers : List Session)
    (replies : Nat → String) (messages : List Message) :
    Except ProcErr (List Message × Nat × Nat) :=
  match process_llm_response parse servers (replies 0) with
  | .error e => .error e
  | .ok (result, execs) =>
    if result = some (replies 0) then
      .ok (messages ++ [⟨"assistant", some (replies 0)⟩], 1, execs)
    else
      .ok (messages ++ [⟨"assistant", some (replies 0)⟩, ⟨"system", result⟩,
            ⟨"assistant", some (replies 1)⟩], 2, execs)

/-! ### Startup and the init-failure cascade -/

/-- On a call that fails at every attempt, the `while attempt < retries`
loop performs exactly `remaining` invocations, sleeps the fixed delay
between consecutive attempts, and raises the error of the last
attempt. -/
theorem execFrom_all_fail {α : Type} (e : Nat → String) (delay : ℚ) :
    ∀ remaining attempt, 0 < remaining →
      execFrom (fun i => (.error (e i) : Except String α)) delay attempt remaining =
        ⟨.error (e (attempt + remaining - 1)), remaining,
          List.replicate (remaining - 1) delay⟩ := by
  intro remaining
  induction remaining with
  | zero => intro _ h; exact absurd h (by simp)
  | succ r ih =>
    intro attempt _
    rcases Nat.eq_zero_or_pos r with hr | hr
    · subst hr; simp [execFrom]
    · have h := ih (attempt + 1) hr
      have hr0 : r ≠ 0 := Nat.pos_iff_ne_zero.mp hr
      simp only [execFrom, if_neg hr0, h]
      have h1 : attempt + 1 + r - 1 = attempt + (r + 1) - 1 := by omega
      have h3 : List.replicate (r + 1 - 1) delay = delay :: List.replicate (r - 1) delay := by
        have hr1 : r + 1 - 1 = (r - 1) + 1 := by omega
        rw [hr1, List.replicate_succ]
      rw [h1, h3]

/-- Claim C3 (amended): `execute_tool` attempts a failing call exactly
`retries` times in total (the first invocation counts toward `retries`,
so the default `retries = 2` yields two attempts), with the fixed
`delay` between consecutive attempts, and after exhaustion raises the
last error; a call that succeeds immediately is invoked once and its
result returned. -/
theorem execute_tool_retry_exhaustion {α : Type} (e : Nat → String) (v : α)
    (n : Nat) (hn : 0 < n) (delay : ℚ) :
    execute_tool true (fun i => (.error (e i) : Except String α)) (n : Int) delay =
      ⟨.error (e (n - 1)), n, List.replicate (n - 1) delay⟩ ∧
    execute_tool true (fun _ => (.ok v : Except String α)) (n : Int) delay =
      ⟨.ok (some v), 1, []⟩ := by
  constructor
  · have h := execFrom_all_fail (α := α) e delay n 0 hn
    simpa [execute_tool] using h
  · obtain ⟨m, rfl⟩ : ∃ m, n = m + 1 := ⟨n - 1, by omega⟩
    simp [execute_tool, execFrom]

/-- Witness for `execute_tool_retry_exhaustion` at `retries = 2`. -/
theorem execute_tool_retry_exhaustion_witness :
    0 < 2 ∧
    (execute_tool true (fun i => (.error (toString i) : Except String Nat)) ((2 : Nat) : Int) 1 =
        ⟨.error (toString (2 - 1)), 2, List.replicate (2 - 1) 1⟩ ∧
      execute_tool true (fun _ => (.ok 7 : Except String Nat)) ((2 : Nat) : Int) 1 =
        ⟨.ok (some 7), 1, []⟩) :=
  ⟨by decide, execute_tool_retry_exhaustion toString 7 2 (by decide) 1⟩

/-- Counterexample to claim C3 as stated: with the default
`retries = 2` a permanently failing call is attempted twice in total,
not three times. -/
theorem execute_tool_default_retries_two_attempts :
    (execute_tool true (fun _ => (.error "boom" : Except String Unit)) 2 1).calls = 2 ∧
    (execute_tool true (fun _ => (.error "boom" : Except String Unit)) 2 1).calls ≠ 3 := by
  constructor
  · rfl
  · intro h
    simp only [execute_tool, execFrom] at h
    exact absurd h (by decide)

/-- Claim C10: on an initialized session, `execute_tool` with a
non-positive `retries` value skips the `while` loop entirely: the
underlying call is never invoked, nothing is raised, and the function
returns `None`. -/
theorem execute_tool_nonpositive_retries_returns_none {α : Type}
    (call : Nat → Except String α) (retries : Int) (hr : retries ≤ 0) (delay : ℚ) :
    execute_tool true call retries delay = ⟨.ok none, 0, []⟩ := by
  simp [execute_tool, Int.toNat_of_nonpos hr, execFrom]

/-- Witness for `execute_tool_nonpositive_retries_returns_none` at
`retries = 0`. -/
theorem execute_tool_nonpositive_retries_returns_none_witness :
    (0 : Int) ≤ 0 ∧
    execute_tool true (fun _ => (.ok 3 : Except String Nat)) 0 1 = ⟨.ok none, 0, []⟩ :=
  ⟨by decide, execute_tool_nonpositive_retries_returns_none _ 0 (by decide) 1⟩

/-- Claim C9: the result of `get_response` does not depend on its
`tools` parameter — for a fixed client state, message list and
endpoint, supplying different (or absent) `tools` arguments yields the
same request payload and the same overall result, because the schema
list attached to the request is always the cached `all_tools`. -/
theorem get_response_independent_of_tools_param
    (allTools : List ToolSchema) (messages : List Message)
    (t₁ t₂ : Option (List ToolSchema)) (endpoint : Payload → Nat → HttpResp) :
    get_response_full allTools messages t₁ endpoint =
      get_response_full allTools messages t₂ endpoint := rfl

/-- Following the words of the spec on context trimming ("prompt = leading
system message + the most recent configurable number of message-pairs
(default 10)"), for comparison with `buildPayload`. -/
def specTrimmedPrompt (pairs : Nat) (messages : List Message) : List Message :=
  match messages with
  | [] => []
  | sys :: rest => sys :: rest.drop (rest.length - 2 * pairs)

/-- Claim C6 (amended): the prompt sent to the inference endpoint is
the entire retained message list — the leading system message and every
turn so far; no trimming to a recent window is applied anywhere. -/
theorem payload_messages_untrimmed (allTools : List ToolSchema)
    (messages : List Message) (toolsParam : Option (List ToolSchema)) :
    (buildPayload allTools messages toolsParam).messages = messages := rfl

/-- Counterexample to claim C6 as stated: with a history of a system
message plus 11 message-pairs, the payload carries all 23 messages, not
the trimmed window of the spec, the system message plus the 10 most recent
pairs. -/
theorem payload_messages_not_spec_trimmed :
    (buildPayload [] (⟨"system", some "s"⟩ ::
        (List.range 22).map (fun i => ⟨"user", some (toString i)⟩)) none).messages ≠
      specTrimmedPrompt 10 (⟨"system", some "s"⟩ ::
        (List.range 22).map (fun i => ⟨"user", some (toString i)⟩)) := by
  intro h
  have hlen := congrArg List.length h
  simp [specTrimmedPrompt, buildPayload] at hlen

/-- The request loop never issues more requests than it has fuel. -/
theorem getResponseLoop_requests_le (resp : Nat → HttpResp) :
    ∀ fuel attempt backoff, (getResponseLoop resp fuel attempt backoff).requests ≤ fuel := by
  intro fuel
  induction fuel with
  | zero => intro _ _; simp [getResponseLoop]
  | succ f ih =>
    intro attempt backoff
    simp only [getResponseLoop]
    cases resp attempt with
    | rateLimited ra => simpa using Nat.succ_le_succ (ih (attempt + 1) (backoff * 2))
    | success c => simp
    | httpError code => simp
    | transportError m => simp

/-- Claim C5: `get_response` retries only on HTTP 429 — any other
non-2xx status or transport failure is raised from the first attempt
with no retry and no sleep; at most 5 requests are ever issued; three
429s followed by a 200 yield the 200 content after exactly three
retries, sleeping the internal backoff 2, 4, 8 when no retry-after hint
is present, and honoring the hint (here 7) when it is. -/
theorem get_response_rate_limit_policy :
    (∀ (resp : Nat → HttpResp) code, resp 0 = .httpError code →
      get_response resp = ⟨.error (.httpStatus code), 1, []⟩) ∧
    (∀ (resp : Nat → HttpResp) m, resp 0 = .transportError m →
      get_response resp = ⟨.error (.transport m), 1, []⟩) ∧
    (∀ resp : Nat → HttpResp, (get_response resp).requests ≤ 5) ∧
    (∀ c : String,
      get_response (fun n => if n < 3 then .rateLimited none
          else .success ⟨none, some c⟩) = ⟨.ok c, 4, [2, 4, 8]⟩) ∧
    (∀ c : String,
      get_response (fun n => if n = 0 then .rateLimited (some 7)
          else if n = 1 then .rateLimited none
          else .success ⟨none, some c⟩) = ⟨.ok c, 3, [7, 4]⟩) := by
  refine ⟨?_, ?_, ?_, ?_, ?_⟩
  · intro resp code h
    simp [get_response, getResponseLoop, h]
  · intro resp m h
    simp [get_response, getResponseLoop, h]
  · intro resp
    exact getResponseLoop_requests_le resp 5 0 2
  · intro c; rfl
  · intro c; rfl

/-- Witness for `get_response_rate_limit_policy`: its hypotheses
discharged on concrete response schedules. -/
theorem get_response_rate_limit_policy_witness :
    ((fun _ => HttpResp.httpError 500) 0 = HttpResp.httpError 500 ∧
      get_response (fun _ => HttpResp.httpError 500) =
        ⟨.error (.httpStatus 500), 1, []⟩) ∧
    ((fun _ => HttpResp.transportError "down") 0 = HttpResp.transportError "down" ∧
      get_response (fun _ => HttpResp.transportError "down") =
        ⟨.error (.transport "down"), 1, []⟩) ∧
    (get_response (fun _ => HttpResp.rateLimited none)).requests ≤ 5 ∧
    get_response (fun n => if n < 3 then .rateLimited none
        else .success ⟨none, some "hello"⟩) = ⟨.ok "hello", 4, [2, 4, 8]⟩ :=
  ⟨⟨rfl, get_response_rate_limit_policy.1 _ 500 rfl⟩,
    ⟨rfl, get_response_rate_limit_policy.2.1 _ "down" rfl⟩,
    get_response_rate_limit_policy.2.2.1 _,
    get_response_rate_limit_policy.2.2.2.1 "hello"⟩

/-- Claim C7: on a 2xx reply, `get_response` returns the canonical
directive text `json.dumps({"tool": name, "arguments": args})` when the
reply carries a (truthy) structured tool call with decodable arguments,
otherwise the free-text content; it raises the malformed-response error
exactly when the reply has neither a tool call nor content. -/
theorem mapChoice_response_mapping (c : ChoiceMsg) :
    (∀ tc args, truthyToolCall c = some tc → tc.argsParsed = some args →
      mapChoice c = .ok (dumps (.obj [("tool", .str tc.name), ("arguments", args)]))) ∧
    (∀ s, truthyToolCall c = none → c.content = some s → mapChoice c = .ok s) ∧
    (mapChoice c = .error .malformed ↔ truthyToolCall c = none ∧ c.content = none) := by
  refine ⟨?_, ?_, ?_⟩
  · intro tc args htc hargs
    simp [mapChoice, htc, hargs]
  · intro s htc hs
    simp [mapChoice, htc, hs]
  · constructor
    · intro h
      rcases htc : truthyToolCall c with _ | tc
      · rcases hs : c.content with _ | s
        · exact ⟨rfl, rfl⟩
        · simp [mapChoice, htc, hs] at h
      · rcases hargs : tc.argsParsed with _ | args <;>
          simp [mapChoice, htc, hargs] at h
    · rintro ⟨htc, hs⟩
      simp [mapChoice, htc, hs]

/-- Witness for `mapChoice_response_mapping`: the three dispositions on
concrete replies, the canonical text shown literally. -/
theorem mapChoice_response_mapping_witness :
    mapChoice ⟨some [⟨"get_weather", some (.obj [("city", .str "Paris")])⟩], none⟩ =
      .ok "\x7b\x22tool\x22: \x22get_weather\x22, \x22arguments\x22: \x7b\x22city\x22: \x22Paris\x22\x7d\x7d" ∧
    mapChoice ⟨none, some "hi there"⟩ = .ok "hi there" ∧
    mapChoice ⟨some [], none⟩ = .error .malformed := by
  refine ⟨?_, ?_, ?_⟩
  · have h := (mapChoice_response_mapping
      ⟨some [⟨"get_weather", some (.obj [("city", .str "Paris")])⟩], none⟩).1
      ⟨"get_weather", some (.obj [("city", .str "Paris")])⟩
      (.obj [("city", .str "Paris")]) rfl rfl
    rw [h]
    rfl
  · exact (mapChoice_response_mapping ⟨none, some "hi there"⟩).2.1 "hi there" rfl rfl
  · exact (mapChoice_response_mapping ⟨some [], none⟩).2.2.mpr ⟨rfl, rfl⟩

/-- Claim C2, code evaluated at the failing input: a reply that decodes
to a JSON object missing the two directive fields — here the reply
`"{}"` — makes `process_llm_response` return Python `None` instead of
the reply text unchanged, contradicting the docstring of the function
("Returns: The result of tool execution or the original response"). -/
theorem process_llm_response_none_on_fieldless_object :
    process_llm_response
        (fun s => if s = "\x7b\x7d" then some (.obj []) else none) [] "\x7b\x7d" =
      .ok (none, 0) ∧
    (none : Option String) ≠ some "\x7b\x7d" :=
  ⟨rfl, by decide⟩

/-- When no session catalog has a tool matching the directive name, the
registration-order search comes up empty. -/
theorem findToolServer_none (name : JValue) :
    ∀ servers : List Session,
      (∀ s ∈ servers, s.tools.find? (fun t => pyEqStr name t.name) = none) →
      findToolServer servers name = none := by
  intro servers
  induction servers with
  | nil => intro _; rfl
  | cons s rest ih =>
    intro h
    simp only [findToolServer, h s (by simp)]
    exact ih fun s' hs' => h s' (by simp [hs'])

/-- Claim C8 (amended): the tool of a directive is resolved in registration
order — the first session whose catalog holds the name wins, even when
later sessions expose the same name — and when no session has it no
exception is raised: the observation `"No server found with tool: X"`
(capital N) is returned for appending to the log. -/
theorem tool_resolution_registration_order :
    (∀ (name : JValue) (pre post : List Session) (s : Session) (t : CatalogTool),
      (∀ s' ∈ pre, s'.tools.find? (fun t' => pyEqStr name t'.name) = none) →
      s.tools.find? (fun t' => pyEqStr name t'.name) = some t →
      findToolServer (pre ++ s :: post) name = some (s, t)) ∧
    (∀ (nm : String) (args : JValue) (raw : String)
        (parse : String → Option JValue) (servers : List Session),
      parse raw = some (.obj [("tool", .str nm), ("arguments", args)]) →
      (∀ s' ∈ servers, s'.tools.find? (fun t' => pyEqStr (.str nm) t'.name) = none) →
      process_llm_response parse servers raw =
        .ok (some ("No server found with tool: " ++ nm), 0)) := by
  constructor
  · intro name pre post s t
    induction pre with
    | nil =>
      intro _ hfound
      simp only [List.nil_append, findToolServer, hfound]
    | cons s0 rest ih =>
      intro hpre hfound
      simp only [List.cons_append, findToolServer, hpre s0 (by simp)]
      exact ih (fun s' hs' => hpre s' (by simp [hs'])) hfound
  · intro nm args raw parse servers hparse hnone
    have hfind := findToolServer_none (.str nm) servers hnone
    unfold process_llm_response
    rw [hparse]
    simp [pyContains, pyGetItem, dictGet, pyStr, hfind]

/-- Witness for `tool_resolution_registration_order`: two sessions both
exposing `lookup` resolve to the first-registered one, and an unknown
tool `Y` yields the textual observation. -/
theorem tool_resolution_registration_order_witness :
    findToolServer
        [⟨[]⟩, ⟨[⟨"lookup", [], fun _ _ => .ok "one"⟩]⟩,
          ⟨[⟨"lookup", [], fun _ _ => .ok "two"⟩]⟩] (.str "lookup") =
      some (⟨[⟨"lookup", [], fun _ _ => .ok "one"⟩]⟩,
        ⟨"lookup", [], fun _ _ => .ok "one"⟩) ∧
    process_llm_response
        (fun s => if s = "DIRY" then
            some (.obj [("tool", .str "Y"), ("arguments", .obj [])]) else none)
        [] "DIRY" =
      .ok (some ("No server found with tool: " ++ "Y"), 0) := by
  constructor
  · exact tool_resolution_registration_order.1 (.str "lookup")
      [⟨[]⟩] [⟨[⟨"lookup", [], fun _ _ => .ok "two"⟩]⟩]
      ⟨[⟨"lookup", [], fun _ _ => .ok "one"⟩]⟩
      ⟨"lookup", [], fun _ _ => .ok "one"⟩ (by intro s' hs'; simp at hs'; simp [hs'])
      (by rfl)
  · exact tool_resolution_registration_order.2 "Y" (.obj []) "DIRY" _ []
      (by rfl) (by intro s' hs'; simp at hs')

/-- Counterexample to claim C8 as stated: the no-match observation the
code returns is capitalized `"No server found with tool: X"`, not the
lowercase `"no server found with tool: X"` quoted by the claim. -/
theorem no_server_observation_capitalized :
    process_llm_response
        (fun s => if s = "DIRX" then
            some (.obj [("tool", .str "X"), ("arguments", .obj [])]) else none)
        [] "DIRX" =
      .ok (some "No server found with tool: X", 0) ∧
    "No server found with tool: X" ≠ "no server found with tool: X" :=
  ⟨rfl, by decide⟩

/-- Helper: `process_llm_response` performs at most one tool execution per
reply. -/
theorem process_llm_response_execs_le_one (parse : String → Option JValue)
    (servers : List Session) (raw : String) (res : Option String × Nat)
    (h : process_llm_response parse servers raw = .ok res) : res.2 ≤ 1 := by
  unfold process_llm_response at h
  repeat' split at h
  all_goals (cases h <;> simp)

/-- Claim C1 (amended): within one conversational turn the loop acts on
at most one tool directive: a directive reply triggers one execution
followed by exactly one further model call, whose reply is appended to
the log without directive processing; so the turn makes at most two
model calls and at most one tool execution. -/
theorem runTurn_at_most_one_tool_execution (parse : String → Option JValue)
    (servers : List Session) (replies : Nat → String) (messages : List Message)
    (log : List Message) (calls execs : Nat)
    (h : runTurn parse servers replies messages = .ok (log, calls, execs)) :
    execs ≤ 1 ∧ calls ≤ 2 := by
  unfold runTurn at h
  cases hp : process_llm_response parse servers (replies 0) with
  | error e => rw [hp] at h; simp at h
  | ok res =>
    obtain ⟨result, execsP⟩ := res
    have hex := process_llm_response_execs_le_one parse servers (replies 0)
      (result, execsP) hp
    rw [hp] at h
    dsimp only at h
    by_cases hres : result = some (replies 0)
    · rw [if_pos hres] at h
      cases h
      exact ⟨hex, by omega⟩
    · rw [if_neg hres] at h
      cases h
      exact ⟨hex, by omega⟩

/-- Witness for `runTurn_at_most_one_tool_execution` on a plain-text
turn. -/
theorem runTurn_at_most_one_tool_execution_witness :
    runTurn (fun _ => none) [] (fun _ => "hi") [] =
      .ok ([⟨"assistant", some "hi"⟩], 1, 0) ∧ (0 : Nat) ≤ 1 ∧ (1 : Nat) ≤ 2 :=
  ⟨rfl, runTurn_at_most_one_tool_execution (fun _ => none) [] (fun _ => "hi")
    [] [⟨"assistant", some "hi"⟩] 1 0 rfl⟩

/-- Counterexample to claim C1 as stated: a turn in which the model
answers the first call with a `get_weather` directive for Paris and the
follow-up call with a directive for Tokyo ends after those two model
calls with exactly ONE tool execution — the second directive is
appended verbatim as an assistant message, never executed, and the
model is never asked again. -/
theorem runTurn_second_directive_not_executed :
    runTurn
        (fun s =>
          if s = "\x7b\x22tool\x22: \x22get_weather\x22, \x22arguments\x22: \x7b\x22city\x22: \x22Paris\x22\x7d\x7d" then
            some (.obj [("tool", .str "get_weather"),
              ("arguments", .obj [("city", .str "Paris")])])
          else if s = "\x7b\x22tool\x22: \x22get_weather\x22, \x22arguments\x22: \x7b\x22city\x22: \x22Tokyo\x22\x7d\x7d" then
            some (.obj [("tool", .str "get_weather"),
              ("arguments", .obj [("city", .str "Tokyo")])])
          else none)
        [⟨[⟨"get_weather",
            [("type", .str "object"),
              ("properties", .obj [("city", .obj [("type", .str "string")])]),
              ("required", .arr [.str "city"])],
            fun args _ => .ok ("weather(" ++ dumps args ++ ")")⟩]⟩]
        (fun n =>
          if n = 0 then "\x7b\x22tool\x22: \x22get_weather\x22, \x22arguments\x22: \x7b\x22city\x22: \x22Paris\x22\x7d\x7d"
          else if n = 1 then "\x7b\x22tool\x22: \x22get_weather\x22, \x22arguments\x22: \x7b\x22city\x22: \x22Tokyo\x22\x7d\x7d"
          else "It is sunny in Paris and Tokyo.")
        [] =
      .ok ([⟨"assistant",
              some "\x7b\x22tool\x22: \x22get_weather\x22, \x22arguments\x22: \x7b\x22city\x22: \x22Paris\x22\x7d\x7d"⟩,
            ⟨"system", some "Tool execution result: weather(\x7b\x22city\x22: \x22Paris\x22\x7d)"⟩,
            ⟨"assistant",
              some "\x7b\x22tool\x22: \x22get_weather\x22, \x22arguments\x22: \x7b\x22city\x22: \x22Tokyo\x22\x7d\x7d"⟩],
          2, 1) ∧
    (1 : Nat) ≠ 2 :=
  ⟨rfl, by decide⟩

end McpWebui
